import Mathlib

/-!
Shallow embedding of `evlc.py`, a command-line launcher/controller for the
external `cvlc` media player.  The script keeps one piece of mutable state,
the global `vlc_process` handle (modelled here as an `Option Nat` holding the
tracked pid), and shells out to `cvlc` (spawn), `pgrep` (process enumeration)
and `os.kill` (signalling).  Each outcome of those external calls is supplied
to the embedded functions as an explicit environment value, and each function
returns the new tracked state together with the list of lines it printed
(`debug_print` lines appear only when debug mode is on) and a record of the
external effects it performed (commands spawned, pids it invoked kill on).
-/

namespace Evlc

/-- Outcome of the `subprocess.Popen` call in `start_vlc`:
either the process starts (with some pid), or `FileNotFoundError`
(`cvlc` missing), or any other exception. -/
inductive SpawnResult where
  | ok (pid : Nat)
  | fileNotFound
  | otherError (msg : String)
deriving DecidableEq

/-- Outcome of the `subprocess.check_output(["pgrep", "vlc"])` call in
`stop_vlc_process`, already decoded into the list of matched pids:
`ok pids` is a successful run whose output parses to `pids`
(the empty list standing for empty output), `calledProcessError` is a
non-zero exit status (pgrep found nothing), `fileNotFound` means `pgrep`
is not installed, and `otherError` is any other exception (including a
failure to parse the output as integers). -/
inductive PgrepResult where
  | ok (pids : List Nat)
  | calledProcessError
  | fileNotFound
  | otherError (msg : String)
deriving DecidableEq

/-- Outcome of one `os.kill(pid, signal.SIGTERM)` call in
`stop_vlc_process`. -/
inductive KillResult where
  | ok
  | processLookupError
  | permissionError
  | otherError (msg : String)
deriving DecidableEq

/-- Outcome of a `subprocess.check_output(["pgrep", "-c", "vlc"])` call in
`get_vlc_status`: a successfully parsed count, a non-zero exit status,
a missing `pgrep` binary, or any other exception. -/
inductive CountResult where
  | ok (count : Nat)
  | calledProcessError
  | fileNotFound
  | otherError (msg : String)
deriving DecidableEq

/-- `debug_print`: emits the line only when `DEBUG_MODE` is on. -/
def debug_print (debugMode : Bool) (msg : String) : List String :=
  if debugMode then [msg] else []

/-- The per-format option table of `start_vlc` (lines 23-32): `none` encodes
the unknown-format error branch. -/
def vlcOptions (media_format : String) : Option (List String) :=
  if media_format = "photo" then
    some ["--play-and-pause", "--no-osd"]
  else if media_format = "video" then
    some ["--loop", "--no-osd"]
  else if media_format = "gif" then
    some ["--demux=avformat", "--loop", "--no-osd", "--aspect-ratio=4:3", "--crop=16:9"]
  else
    none

/-- `command = ["cvlc", media_path] + vlc_options` (line 35). -/
def build_command (media_path : String) (vlc_options : List String) : List String :=
  "cvlc" :: media_path :: vlc_options

/-- Result of `start_vlc`: the tracked-process state afterwards, the argv
lists actually handed to `subprocess.Popen`, and the printed lines. -/
structure StartResult where
  tracked : Option Nat
  spawned : List (List String)
  output : List String
deriving DecidableEq

/-- Shallow embedding of `start_vlc(media_path, media_format, dry_run)`
(lines 19-58).  `tracked` is the global `vlc_process` on entry and `spawn`
is the outcome the operating system would give the `subprocess.Popen` call. -/
def start_vlc (debugMode : Bool) (media_path media_format : String)
    (dry_run : Bool) (tracked : Option Nat) (spawn : SpawnResult) : StartResult :=
  match vlcOptions media_format with
  | none =>
      { tracked := tracked, spawned := [],
        output := ["Error: Unknown format \x27" ++ media_format ++
                   "\x27. Supported formats are \x27gif\x27, \x27photo\x27, \x27video\x27."] }
  | some vlc_options =>
      let command := build_command media_path vlc_options
      let header :=
        debug_print debugMode "\n--- VLC Command ---" ++
        debug_print debugMode ("Format: " ++ media_format) ++
        debug_print debugMode ("File: " ++ media_path) ++
        debug_print debugMode ("Generated Command: " ++ String.intercalate " " command) ++
        debug_print debugMode "-------------------"
      if !dry_run then
        match tracked with
        | some p =>
            { tracked := some p, spawned := [],
              output := header ++
                ["VLC is already running via this script. Please stop it first before starting a new one."] }
        | none =>
            let executing := debug_print debugMode "\nExecuting command..."
            match spawn with
            | SpawnResult.ok pid =>
                { tracked := some pid, spawned := [command],
                  output := header ++ executing ++
                    debug_print debugMode ("VLC started with PID: " ++ toString pid) }
            | SpawnResult.fileNotFound =>
                { tracked := none, spawned := [],
                  output := header ++ executing ++
                    ["Error: \x60cvlc\x60 command not found. Make sure VLC is installed and in your system\x27s PATH."] }
            | SpawnResult.otherError e =>
                { tracked := none, spawned := [],
                  output := header ++ executing ++
                    ["An unexpected error occurred while trying to start VLC: " ++ e] }
      else
        { tracked := tracked, spawned := [],
          output := header ++ debug_print debugMode "\nPerforming a dry run (command not executed)." }

/-- Result of `stop_vlc_process`: the tracked-process state afterwards, the
pids `os.kill` was invoked on (in order), the final `killed_count`, and the
printed lines. -/
structure StopResult where
  tracked : Option Nat
  attempted : List Nat
  killed_count : Nat
  output : List String
deriving DecidableEq

/-- The body of the `for pid in found_pids` loop of `stop_vlc_process`
(lines 92-102): the lines printed for one pid, given its kill outcome. -/
def kill_report (debugMode : Bool) (kill : Nat → KillResult) (pid : Nat) : List String :=
  match kill pid with
  | KillResult.ok =>
      debug_print debugMode ("Sent SIGTERM to PID " ++ toString pid ++ ".")
  | KillResult.processLookupError =>
      debug_print debugMode ("PID " ++ toString pid ++ " not found (already terminated or invalid).")
  | KillResult.permissionError =>
      ["Permission denied to kill PID " ++ toString pid ++ ". Check user permissions."]
  | KillResult.otherError e =>
      ["An error occurred while trying to kill PID " ++ toString pid ++ ": " ++ e]

/-- Shallow embedding of `stop_vlc_process()` (lines 60-109).  `tracked` is
the global `vlc_process` on entry, `pgrep` the outcome of the enumeration
call, and `kill pid` the outcome the operating system would give
`os.kill(pid, SIGTERM)`. -/
def stop_vlc_process (debugMode : Bool) (tracked : Option Nat)
    (pgrep : PgrepResult) (kill : Nat → KillResult) : StopResult :=
  match pgrep with
  | PgrepResult.calledProcessError =>
      -- lines 69-73: debug note, clear the handle, return before signalling
      { tracked := none, attempted := [], killed_count := 0,
        output := debug_print debugMode "No \x27vlc\x27 processes found by \x27pgrep\x27." }
  | PgrepResult.fileNotFound =>
      { tracked := tracked, attempted := [], killed_count := 0,
        output := ["Error: \x27pgrep\x27 command not found. Cannot automatically find and kill processes.",
                   "Please ensure \x27pgrep\x27 is installed and in your system\x27s PATH."] }
  | PgrepResult.otherError e =>
      { tracked := tracked, attempted := [], killed_count := 0,
        output := ["An unexpected error occurred while trying to find processes with \x27pgrep\x27: " ++ e] }
  | PgrepResult.ok found_pids =>
      if found_pids = [] then
        -- lines 82-86
        { tracked := none, attempted := [], killed_count := 0,
          output := ["No \x27vlc\x27 processes are currently running."] }
      else
        let header :=
          debug_print debugMode
            ("Found \x27vlc\x27 processes with PIDs: " ++
              String.intercalate ", " (found_pids.map toString)) ++
          debug_print debugMode "Attempting to terminate..."
        let body := found_pids.flatMap (kill_report debugMode kill)
        let killed_count := (found_pids.filter (fun pid => kill pid = KillResult.ok)).length
        if killed_count > 0 then
          { tracked := none, attempted := found_pids, killed_count := killed_count,
            output := header ++ body ++
              ["Successfully sent termination signal to " ++ toString killed_count ++
               " \x27vlc\x27 process(es)."] }
        else
          { tracked := tracked, attempted := found_pids, killed_count := 0,
            output := header ++ body ++
              ["No \x27vlc\x27 processes were successfully terminated (might be running under different user or already dead)."] }

/-- Result of `get_vlc_status`: the tracked-process state afterwards, the
pids signalled (none: the function contains no `os.kill` call), and the
printed lines. -/
structure StatusResult where
  tracked : Option Nat
  attempted : List Nat
  output : List String
deriving DecidableEq

/-- Shallow embedding of `get_vlc_status()` (lines 111-141).  `tracked` is
the global `vlc_process` on entry; `poll` is what `vlc_process.poll()` would
return when a process is tracked (`none` = still running, `some code` =
exited with that status); `check1` and `check2` are the outcomes of the two
`pgrep -c vlc` invocations (lines 115 and 135; the first result is used only
for exception dispatch, the second is the parsed count). -/
def get_vlc_status (debugMode : Bool) (tracked : Option Nat) (poll : Option Int)
    (check1 : CountResult) (check2 : CountResult) : StatusResult :=
  let out1 :=
    match check1 with
    | CountResult.ok _ =>
        debug_print debugMode "At least one \x27vlc\x27 process is currently running (found by pgrep)."
    | CountResult.calledProcessError =>
        debug_print debugMode "No \x27vlc\x27 processes are currently running (not found by pgrep)."
    | CountResult.fileNotFound =>
        ["Error: \x27pgrep\x27 command not found. Cannot determine status."]
    | CountResult.otherError e =>
        ["An unexpected error occurred while checking status: " ++ e]
  let trackedAndOut2 : Option Nat × List String :=
    match tracked with
    | some p =>
        match poll with
        | none =>
            (some p,
             debug_print debugMode
               ("  (Internally tracked VLC process with PID " ++ toString p ++ " is active.)"))
        | some _ =>
            (none,
             debug_print debugMode
               ("  (Internally tracked VLC process with PID " ++ toString p ++ " has terminated.)"))
    | none =>
        (none, debug_print debugMode "  (No VLC process is currently tracked by this script instance.)")
  let out3 :=
    if !debugMode then
      match check2 with
      | CountResult.ok pgrep_count =>
          if pgrep_count > 0 then
            ["VLC status: " ++ toString pgrep_count ++ " process(es) running."]
          else
            ["VLC status: No processes running."]
      | _ => ["VLC status: Unable to determine (pgrep error)."]
    else []
  { tracked := trackedAndOut2.1, attempted := [],
    output := out1 ++ trackedAndOut2.2 ++ out3 }

/-! ### Claim theorems -/

/-- C1: for every supported format, `start_vlc` hands `subprocess.Popen`
the player binary `cvlc`, then the media path, then exactly the fixed flag
list of that format, in exactly this order: photo gets play-and-pause and
no-osd; video gets loop and no-osd; gif gets the avformat demuxer, loop,
no-osd, aspect-ratio 4:3 and crop 16:9. -/
theorem start_builds_exact_command_line (debugMode : Bool) (path : String) (pid : Nat) :
    (start_vlc debugMode path "photo" false none (SpawnResult.ok pid)).spawned
      = [["cvlc", path, "--play-and-pause", "--no-osd"]] ∧
    (start_vlc debugMode path "video" false none (SpawnResult.ok pid)).spawned
      = [["cvlc", path, "--loop", "--no-osd"]] ∧
    (start_vlc debugMode path "gif" false none (SpawnResult.ok pid)).spawned
      = [["cvlc", path, "--demux=avformat", "--loop", "--no-osd", "--aspect-ratio=4:3", "--crop=16:9"]] := by
  refine ⟨rfl, rfl, rfl⟩

/-- C2: with `dry_run` true, `start_vlc` spawns no process and leaves the
tracked-process state unchanged, for every format, path, prior state and
environment. -/
theorem dry_run_never_spawns (debugMode : Bool) (path fmt : String)
    (tracked : Option Nat) (spawn : SpawnResult) :
    (start_vlc debugMode path fmt true tracked spawn).spawned = [] ∧
    (start_vlc debugMode path fmt true tracked spawn).tracked = tracked := by
  unfold start_vlc
  cases h : vlcOptions fmt <;> simp

/-- C3: a non-dry-run `start_vlc` call made while a process is already
tracked prints the already-running message, spawns nothing, and leaves the
single tracked process in place. -/
theorem second_start_rejected (debugMode : Bool) (path : String) (fmt : String)
    (p : Nat) (spawn : SpawnResult)
    (h : fmt = "photo" ∨ fmt = "video" ∨ fmt = "gif") :
    ("VLC is already running via this script. Please stop it first before starting a new one."
        ∈ (start_vlc debugMode path fmt false (some p) spawn).output) ∧
    (start_vlc debugMode path fmt false (some p) spawn).spawned = [] ∧
    (start_vlc debugMode path fmt false (some p) spawn).tracked = some p := by
  obtain h | h | h := h <;> subst h <;>
    exact ⟨by simp [start_vlc, vlcOptions, debug_print], rfl, rfl⟩

/-- Witness for C3 at a concrete input. -/
theorem second_start_rejected_witness :
    ("VLC is already running via this script. Please stop it first before starting a new one."
        ∈ (start_vlc false "/tmp/a.mp4" "video" false (some 7) (SpawnResult.ok 9)).output) ∧
    (start_vlc false "/tmp/a.mp4" "video" false (some 7) (SpawnResult.ok 9)).spawned = [] ∧
    (start_vlc false "/tmp/a.mp4" "video" false (some 7) (SpawnResult.ok 9)).tracked = some 7 :=
  second_start_rejected false "/tmp/a.mp4" "video" 7 (SpawnResult.ok 9) (Or.inr (Or.inl rfl))

/-- C9: with `dry_run` true the already-running check is skipped entirely:
even while a process is tracked, a dry-run `start_vlc` never prints the
already-running message, still computes (and, in debug mode, prints) the
generated command line, and spawns nothing. -/
theorem dry_run_skips_already_running_check (path : String) (fmt : String)
    (p : Nat) (spawn : SpawnResult)
    (h : fmt = "photo" ∨ fmt = "video" ∨ fmt = "gif") :
    ("VLC is already running via this script. Please stop it first before starting a new one."
        ∉ (start_vlc true path fmt true (some p) spawn).output) ∧
    (∃ opts, vlcOptions fmt = some opts ∧
      ("Generated Command: " ++ String.intercalate " " (build_command path opts))
        ∈ (start_vlc true path fmt true (some p) spawn).output) ∧
    (start_vlc true path fmt true (some p) spawn).spawned = [] := by
  obtain h | h | h := h <;> subst h <;>
    refine ⟨?_, ⟨_, rfl, by simp [start_vlc, vlcOptions, build_command, debug_print]⟩, rfl⟩ <;>
    · intro hmem
      simp [start_vlc, vlcOptions, build_command, debug_print, String.ext_iff,
        String.data_append] at hmem

/-- Witness for C9 at a concrete input. -/
theorem dry_run_skips_already_running_check_witness :
    ("VLC is already running via this script. Please stop it first before starting a new one."
        ∉ (start_vlc true "/tmp/a.gif" "gif" true (some 7) (SpawnResult.ok 9)).output) ∧
    (∃ opts, vlcOptions "gif" = some opts ∧
      ("Generated Command: " ++ String.intercalate " " (build_command "/tmp/a.gif" opts))
        ∈ (start_vlc true "/tmp/a.gif" "gif" true (some 7) (SpawnResult.ok 9)).output) ∧
    (start_vlc true "/tmp/a.gif" "gif" true (some 7) (SpawnResult.ok 9)).spawned = [] :=
  dry_run_skips_already_running_check "/tmp/a.gif" "gif" 7 (SpawnResult.ok 9)
    (Or.inr (Or.inr rfl))

/-- C4: when the enumeration matches zero processes, `stop_vlc_process`
prints exactly the no-processes-running report and invokes no kill; that
report is distinct from (and absent in) the output of a run where
processes matched but zero signals were delivered. -/
theorem stop_zero_match_report (debugMode : Bool) (tracked tracked2 : Option Nat)
    (kill : Nat → KillResult) :
    (stop_vlc_process debugMode tracked (PgrepResult.ok []) kill).output
      = ["No \x27vlc\x27 processes are currently running."] ∧
    (stop_vlc_process debugMode tracked (PgrepResult.ok []) kill).attempted = [] ∧
    (stop_vlc_process debugMode tracked (PgrepResult.ok []) kill).killed_count = 0 ∧
    (stop_vlc_process false tracked2 (PgrepResult.ok [5]) (fun _ => KillResult.permissionError)).output
      = ["Permission denied to kill PID 5. Check user permissions.",
         "No \x27vlc\x27 processes were successfully terminated (might be running under different user or already dead)."] ∧
    "No \x27vlc\x27 processes are currently running."
      ∉ (stop_vlc_process false tracked2 (PgrepResult.ok [5]) (fun _ => KillResult.permissionError)).output := by
  refine ⟨rfl, rfl, rfl, rfl, ?_⟩
  have h4 : (stop_vlc_process false tracked2 (PgrepResult.ok [5])
        (fun _ => KillResult.permissionError)).output
      = ["Permission denied to kill PID 5. Check user permissions.",
         "No \x27vlc\x27 processes were successfully terminated (might be running under different user or already dead)."] := rfl
  rw [h4]
  decide

/-- C6: when `pgrep` itself is missing, `stop_vlc_process` prints the
error report and returns without invoking kill on any process, leaving the
tracked state unchanged. -/
theorem stop_pgrep_missing_aborts (debugMode : Bool) (tracked : Option Nat)
    (kill : Nat → KillResult) :
    (stop_vlc_process debugMode tracked PgrepResult.fileNotFound kill).attempted = [] ∧
    (stop_vlc_process debugMode tracked PgrepResult.fileNotFound kill).killed_count = 0 ∧
    (stop_vlc_process debugMode tracked PgrepResult.fileNotFound kill).tracked = tracked ∧
    (stop_vlc_process debugMode tracked PgrepResult.fileNotFound kill).output
      = ["Error: \x27pgrep\x27 command not found. Cannot automatically find and kill processes.",
         "Please ensure \x27pgrep\x27 is installed and in your system\x27s PATH."] :=
  ⟨rfl, rfl, rfl, rfl⟩

/-- C5: when the enumeration matches `found_pids` and every kill delivery
succeeds, `stop_vlc_process` reports `killed_count` equal to the number of
matches; and whatever the per-process outcomes (third conjunct, with an
arbitrary kill environment), every match is attempted — a vanished process
or a permission failure does not abort signalling of the rest. -/
theorem stop_signals_all_matches (debugMode : Bool) (tracked : Option Nat)
    (found_pids : List Nat) (kill kill2 : Nat → KillResult)
    (h : ∀ pid ∈ found_pids, kill pid = KillResult.ok) :
    (stop_vlc_process debugMode tracked (PgrepResult.ok found_pids) kill).killed_count
      = found_pids.length ∧
    (stop_vlc_process debugMode tracked (PgrepResult.ok found_pids) kill).attempted
      = found_pids ∧
    (stop_vlc_process debugMode tracked (PgrepResult.ok found_pids) kill2).attempted
      = found_pids := by
  have hfilter : found_pids.filter (fun pid => kill pid = KillResult.ok) = found_pids :=
    List.filter_eq_self.mpr (by intro a ha; simpa using h a ha)
  unfold stop_vlc_process
  by_cases hnil : found_pids = []
  · subst hnil
    simp
  · simp only [hnil, if_neg, reduceIte, hfilter]
    refine ⟨?_, ?_, ?_⟩
    · split
      · simp
      · simp
        omega
    · split <;> simp
    · split <;> simp

/-- Witness for C5 at a concrete input: three matches, all deliveries
succeed for the main environment, one permission failure for the
arbitrary one. -/
theorem stop_signals_all_matches_witness :
    (stop_vlc_process false none (PgrepResult.ok [3, 4, 5]) (fun _ => KillResult.ok)).killed_count
      = [3, 4, 5].length ∧
    (stop_vlc_process false none (PgrepResult.ok [3, 4, 5]) (fun _ => KillResult.ok)).attempted
      = [3, 4, 5] ∧
    (stop_vlc_process false none (PgrepResult.ok [3, 4, 5])
        (fun p => if p = 4 then KillResult.permissionError else KillResult.ok)).attempted
      = [3, 4, 5] :=
  stop_signals_all_matches false none [3, 4, 5] (fun _ => KillResult.ok)
    (fun p => if p = 4 then KillResult.permissionError else KillResult.ok)
    (by intro pid hpid; rfl)

/-- C7 counterexample: with debug mode on and two processes running
(the count query returns 2), `get_vlc_status` prints only debug lines and
no count report at all — contradicting "reports count M for every
invocation regardless of other options". -/
theorem status_debug_omits_count :
    (get_vlc_status true none none (CountResult.ok 2) (CountResult.ok 2)).output
      = ["At least one \x27vlc\x27 process is currently running (found by pgrep).",
         "  (No VLC process is currently tracked by this script instance.)"] ∧
    "VLC status: 2 process(es) running."
      ∉ (get_vlc_status true none none (CountResult.ok 2) (CountResult.ok 2)).output := by
  refine ⟨rfl, ?_⟩
  decide

/-- C7 amended: when debug mode is off, `get_vlc_status` reports the count
returned by the count query: `M > 0` yields the "M process(es) running."
report and `M = 0` yields "No processes running." (with debug mode on, the
concise count summary is not printed, per the counterexample). -/
theorem status_reports_count_when_not_debug (tracked : Option Nat) (poll : Option Int)
    (check1 : CountResult) (M : Nat) :
    (0 < M → ("VLC status: " ++ toString M ++ " process(es) running.")
        ∈ (get_vlc_status false tracked poll check1 (CountResult.ok M)).output) ∧
    (M = 0 → "VLC status: No processes running."
        ∈ (get_vlc_status false tracked poll check1 (CountResult.ok M)).output) := by
  constructor
  · intro hM
    cases tracked <;> cases poll <;> cases check1 <;>
      simp [get_vlc_status, debug_print, hM]
  · intro hM
    subst hM
    cases tracked <;> cases poll <;> cases check1 <;>
      simp [get_vlc_status, debug_print]

/-- Witness for C7 amended at concrete counts 2 and 0. -/
theorem status_reports_count_when_not_debug_witness :
    (("VLC status: " ++ toString 2 ++ " process(es) running.")
        ∈ (get_vlc_status false none none (CountResult.ok 2) (CountResult.ok 2)).output) ∧
    ("VLC status: No processes running."
        ∈ (get_vlc_status false none none (CountResult.ok 0) (CountResult.ok 0)).output) :=
  ⟨(status_reports_count_when_not_debug none none (CountResult.ok 2) 2).1 (by decide),
   (status_reports_count_when_not_debug none none (CountResult.ok 0) 0).2 rfl⟩

/-- C8 counterexample: `get_vlc_status` is not modification-free — when the
tracked process has terminated (poll returns an exit status), it clears the
tracked handle, so the tracked-process state does change. -/
theorem status_modifies_tracked_state :
    (get_vlc_status false (some 7) (some 0) (CountResult.ok 1) (CountResult.ok 1)).tracked
      ≠ some 7 := by
  decide

/-- C8 amended: `get_vlc_status` invokes kill on no process; it leaves the
tracked-process state unchanged whenever nothing is tracked or the tracked
process is still running, and its only modification is clearing the handle
(the state afterwards is either the input state or `none`). -/
theorem status_sends_no_signals (debugMode : Bool) (tracked : Option Nat) (poll : Option Int)
    (check1 check2 : CountResult) :
    (get_vlc_status debugMode tracked poll check1 check2).attempted = [] ∧
    ((tracked = none ∨ poll = none) →
      (get_vlc_status debugMode tracked poll check1 check2).tracked = tracked) ∧
    ((get_vlc_status debugMode tracked poll check1 check2).tracked = tracked ∨
      (get_vlc_status debugMode tracked poll check1 check2).tracked = none) := by
  cases tracked <;> cases poll <;> simp [get_vlc_status]

/-- Witness for C8 amended: a tracked, still-running process is preserved. -/
theorem status_sends_no_signals_witness :
    (get_vlc_status false (some 3) none (CountResult.ok 1) (CountResult.ok 1)).attempted = [] ∧
    (get_vlc_status false (some 3) none (CountResult.ok 1) (CountResult.ok 1)).tracked = some 3 :=
  ⟨(status_sends_no_signals false (some 3) none (CountResult.ok 1) (CountResult.ok 1)).1,
   (status_sends_no_signals false (some 3) none (CountResult.ok 1) (CountResult.ok 1)).2.1
     (Or.inr rfl)⟩

/-- C10: `start_vlc` is atomic on spawn failure — whether the binary is
missing or any other spawn error occurs, the tracked state stays absent,
and a subsequent start from that state is not rejected as already running
(it spawns and tracks the new process; the already-running message is not
printed). -/
theorem start_spawn_failure_leaves_no_tracked (debugMode : Bool) (path fmt e : String) :
    (start_vlc debugMode path fmt false none SpawnResult.fileNotFound).tracked = none ∧
    (start_vlc debugMode path fmt false none (SpawnResult.otherError e)).tracked = none ∧
    (start_vlc false "/tmp/clip.mp4" "video" false
        (start_vlc debugMode path fmt false none SpawnResult.fileNotFound).tracked
        (SpawnResult.ok 42)).tracked = some 42 ∧
    (start_vlc false "/tmp/clip.mp4" "video" false
        (start_vlc debugMode path fmt false none SpawnResult.fileNotFound).tracked
        (SpawnResult.ok 42)).spawned
      = [["cvlc", "/tmp/clip.mp4", "--loop", "--no-osd"]] ∧
    "VLC is already running via this script. Please stop it first before starting a new one."
      ∉ (start_vlc false "/tmp/clip.mp4" "video" false
          (start_vlc debugMode path fmt false none SpawnResult.fileNotFound).tracked
          (SpawnResult.ok 42)).output := by
  have h1 : (start_vlc debugMode path fmt false none SpawnResult.fileNotFound).tracked = none := by
    unfold start_vlc
    cases hv : vlcOptions fmt <;> simp
  have h2 : (start_vlc debugMode path fmt false none (SpawnResult.otherError e)).tracked = none := by
    unfold start_vlc
    cases hv : vlcOptions fmt <;> simp
  refine ⟨h1, h2, ?_, ?_, ?_⟩ <;> rw [h1] <;> decide

end Evlc
